import Mathlib

/-!
Verification development for the NoMoreDM bot (src/main.rs).

The program keeps a registry of Discord guilds (tenants), and both
periodically (a cron job firing every 7 seconds) and on demand (the
"instant" slash command) issues a protective `incident-actions` call that
disables direct messages for 24 hours.  We shallowly embed the program:

* machine-level effects (HTTP send, JSON parse, current time) become
  fields of an explicit `World` record;
* the two global mutexes `TOKEN` and `GUILDS` become an explicit
  `SharedState` record threaded through the functions that touch them;
* Rust `Result<bool, reqwest::Error>` becomes `Except String Bool`;
* a Rust panic (`unwrap` / `unwrap_err` on the wrong variant) becomes
  `none` in an `Option`-valued model of the corresponding code path;
* the scheduler-loop body is additionally given a small-step event trace
  (`Ev`) recording lock acquisition/release, outbound calls, log lines
  and sleeps, so that lock-holding and pacing claims can be stated.
-/

namespace NoMoreDM

/-- The JSON payload of the incident-actions endpoint
(struct `IncidentAction` in main.rs): two optional RFC-3339 timestamps,
`None` serializing to `null`. -/
structure IncidentAction where
  invites_disabled_until : Option String
  dms_disabled_until : Option String

/-- Outcome names used by the specification for one Action Client call. -/
inductive ProtectiveActionResult where
  | Applied : ProtectiveActionResult
  | Rejected : ProtectiveActionResult
  | TransportFailure : String → ProtectiveActionResult

/-- The two process-global mutexes of main.rs: `TOKEN` (the bearer
credential pushed at startup) and `GUILDS` (the tenant registry, a vector
of guild ids appended by `guild_create`). -/
structure SharedState where
  token : String
  guilds : List Nat

/-- One outbound HTTP request as built by `enable_security_actions`:
the URL, the Authorization header value, and the JSON body. -/
structure Request where
  url : String
  authorization : String
  body : IncidentAction

/-- The external world: the current UTC time in whole seconds since the
Unix epoch (`chrono::Utc::now()`, modelled at second granularity), the
transport (`reqwest` send, which may fail with a cause), and the response
body parse (`res.json::<IncidentAction>()`, which may fail with a cause). -/
structure World where
  now : Nat
  send : Request → Except String String
  parseIncidentAction : String → Except String IncidentAction

/-! RFC-3339 serialization.  `chrono`'s `DateTime::<Utc>::to_rfc3339`
prints `YYYY-MM-DDTHH:MM:SS+00:00`.  We reproduce it at whole-second
granularity from an epoch-seconds count, using the standard
civil-from-days calendar algorithm. -/

/-- Convert a count of days since 1970-01-01 to a Gregorian
(year, month, day) triple.  Valid for all dates from the epoch on. -/
def civilFromDays (z : Nat) : Nat × Nat × Nat :=
  let w := z + 719468
  let era := w / 146097
  let doe := w % 146097
  let yoe := (doe - doe / 1460 + doe / 36524 - doe / 146096) / 365
  let y := yoe + era * 400
  let doy := doe - (365 * yoe + yoe / 4 - yoe / 100)
  let mp := (5 * doy + 2) / 153
  let d := doy - (153 * mp + 2) / 5 + 1
  let m := if mp < 10 then mp + 3 else mp - 9
  (if m ≤ 2 then y + 1 else y, m, d)

/-- Zero-pad a numeral to two digits. -/
def pad2 (n : Nat) : String :=
  if n < 10 then "0" ++ Nat.repr n else Nat.repr n

/-- Zero-pad a numeral to four digits. -/
def pad4 (n : Nat) : String :=
  if n < 10 then "000" ++ Nat.repr n
  else if n < 100 then "00" ++ Nat.repr n
  else if n < 1000 then "0" ++ Nat.repr n
  else Nat.repr n

/-- RFC-3339 UTC rendering of an epoch-seconds instant, as produced by
`to_rfc3339` on a `DateTime<Utc>` (second granularity, explicit +00:00
offset). -/
def toRfc3339Utc (t : Nat) : String :=
  let days := t / 86400
  let sod := t % 86400
  let ymd := civilFromDays days
  (pad4 ymd.1 ++ "-" ++ pad2 ymd.2.1 ++ "-" ++ pad2 ymd.2.2 ++ "T" ++
    pad2 (sod / 3600) ++ ":" ++ pad2 (sod % 3600 / 60) ++ ":" ++
    pad2 (sod % 60)) ++ "+00:00"

/-- Sanity anchor: the Unix epoch renders as expected. -/
theorem toRfc3339Utc_epoch : toRfc3339Utc 0 = "1970-01-01T00:00:00+00:00" := by
  decide

/-- Sanity anchor: a well-known modern instant renders as expected. -/
theorem toRfc3339Utc_modern :
    toRfc3339Utc 1700000000 = "2023-11-14T22:13:20+00:00" := by
  decide

/-- The request `enable_security_actions` builds (main.rs lines 85-99):
URL keyed by the guild id, Authorization header `Bot <token>`, body with
`invites_disabled_until = None` and `dms_disabled_until` set to now plus
one day (`chrono::Duration::days(1)` = 86400 seconds), RFC-3339 rendered. -/
def buildRequest (now : Nat) (token : String) (guildId : Nat) : Request :=
  { url := "https://discord.com/api/v9/guilds/" ++ Nat.repr guildId ++
      "/incident-actions"
    authorization := "Bot " ++ token
    body :=
      { invites_disabled_until := none
        dms_disabled_until := some (toRfc3339Utc (now + 86400)) } }

/-- Embedding of `enable_security_actions` (main.rs lines 84-113).  It
clones the token out of the `TOKEN` mutex, builds the request, sends it
(`?` propagates a transport failure), parses the response body
(`?` propagates a parse failure), and returns `Ok(true)` when the parsed
`dms_disabled_until` is present, `Ok(false)` otherwise.  The shared state
is threaded explicitly to make the frame effect provable. -/
def enable_security_actions (w : World) (guildId : Nat) (st : SharedState) :
    Except String Bool × SharedState :=
  let token := st.token
  match w.send (buildRequest w.now token guildId) with
  | Except.error e => (Except.error e, st)
  | Except.ok respBody =>
    match w.parseIncidentAction respBody with
    | Except.error e => (Except.error e, st)
    | Except.ok json =>
      if json.dms_disabled_until.isSome then (Except.ok true, st)
      else (Except.ok false, st)

/-- The specification's names for the values of the source's
`Result<bool, Error>`: `Ok(true)` is `Applied`, `Ok(false)` is `Rejected`
and `Err(cause)` is `TransportFailure(cause)`. -/
def classify (r : Except String Bool) : ProtectiveActionResult :=
  match r with
  | Except.error e => ProtectiveActionResult.TransportFailure e
  | Except.ok true => ProtectiveActionResult.Applied
  | Except.ok false => ProtectiveActionResult.Rejected

/-- Spec-side classification of one Action Client call, written from the
specification's words (section 4.3): if the transport/send fails or the
response cannot be parsed, `TransportFailure(cause)`; else if the parsed
response's `dms_disabled_until` is present, `Applied`; else `Rejected`. -/
def apply_spec (w : World) (guildId : Nat) (st : SharedState) :
    ProtectiveActionResult :=
  match w.send (buildRequest w.now st.token guildId) with
  | Except.error e => ProtectiveActionResult.TransportFailure e
  | Except.ok respBody =>
    match w.parseIncidentAction respBody with
    | Except.error e => ProtectiveActionResult.TransportFailure e
    | Except.ok json =>
      if json.dms_disabled_until.isSome then ProtectiveActionResult.Applied
      else ProtectiveActionResult.Rejected

/-! The on-demand handler.  `interaction_create` (main.rs lines 31-61)
reacts to the "instant" application command.  Rust panics are modelled as
`none`: `Result::unwrap` on an `Err`, `Result::unwrap_err` on an `Ok`,
and `Option::unwrap` on a `None` all abort the handler task. -/

/-- Model of `Result::is_err`. -/
def res_is_err (r : Except String Bool) : Bool :=
  match r with
  | Except.error _ => true
  | Except.ok _ => false

/-- Model of `Result::unwrap` on `Result<bool, _>`: `none` is the panic
on an `Err` value. -/
def resUnwrap (r : Except String Bool) : Option Bool :=
  match r with
  | Except.ok b => some b
  | Except.error _ => none

/-- Model of `Result::unwrap_err`: `none` is the panic on an `Ok` value. -/
def resUnwrapErr (r : Except String Bool) : Option String :=
  match r with
  | Except.error e => some e
  | Except.ok _ => none

/-- The shared failure test `res.is_err() || !res.as_ref().unwrap()`
(main.rs lines 42 and 148).  The `||` short-circuits, so the `unwrap`
only runs on the `Ok` path and the test itself never panics. -/
def failCond (r : Except String Bool) : Option Bool :=
  if res_is_err r then some true
  else do
    let b ← resUnwrap r
    pure (!b)

/-- The two embeds the on-demand handler can edit into the deferred
response: the red error embed blaming missing permissions, or the green
success embed. -/
inductive Report where
  | errorEmbed : Report
  | successEmbed : Report

/-- The report phase of `interaction_create` (main.rs lines 42-59), run
after `enable_security_actions` returned `res`.  On the failure branch the
source logs, then evaluates `res.unwrap_err()` with no `is_err` guard
(line 44); on `Ok(false)` that `unwrap_err` panics, so the model returns
`none` and no embed is delivered. -/
def handlerReport (res : Except String Bool) : Option Report := do
  let failed ← failCond res
  if failed then do
    let _cause ← resUnwrapErr res
    pure Report.errorEmbed
  else
    pure Report.successEmbed

/-- An incoming interaction, as far as the handler inspects it: whether it
is an application command, the command name, and the optional guild id. -/
structure Interaction where
  isApplicationCommand : Bool
  name : String
  guildId : Option Nat

/-- What one `interaction_create` invocation amounts to. -/
inductive OnDemandOutcome where
  | notCommand : OnDemandOutcome
  | otherCommand : OnDemandOutcome
  | panickedNoGuild : OnDemandOutcome
  | panickedReport : Nat → Except String Bool → OnDemandOutcome
  | reported : Nat → Except String Bool → Report → OnDemandOutcome

/-- Embedding of `interaction_create` (main.rs lines 31-61).  A
non-application-command interaction returns early; any command other than
"instant" falls through; for "instant" the source evaluates
`interaction.guild_id.unwrap()` (line 40), which panics when the
interaction carries no guild; otherwise it runs `enable_security_actions`
and the report phase.  Log-argument evaluation is strict (the error level
is enabled under env_logger's defaults). -/
def interaction_create (w : World) (st : SharedState) (i : Interaction) :
    OnDemandOutcome :=
  if i.isApplicationCommand then
    if i.name = "instant" then
      match i.guildId with
      | none => OnDemandOutcome.panickedNoGuild
      | some g =>
        let res := (enable_security_actions w g st).1
        match handlerReport res with
        | none => OnDemandOutcome.panickedReport g res
        | some r => OnDemandOutcome.reported g res r
    else OnDemandOutcome.otherCommand
  else OnDemandOutcome.notCommand

/-- The Action Client calls an outcome records (at most one per
invocation of the on-demand handler). -/
def callsMade (o : OnDemandOutcome) : List Nat :=
  match o with
  | OnDemandOutcome.notCommand => []
  | OnDemandOutcome.otherCommand => []
  | OnDemandOutcome.panickedNoGuild => []
  | OnDemandOutcome.panickedReport g _ => [g]
  | OnDemandOutcome.reported g _ _ => [g]

/-- Whether the handler task panicked. -/
def crashed (o : OnDemandOutcome) : Bool :=
  match o with
  | OnDemandOutcome.panickedNoGuild => true
  | OnDemandOutcome.panickedReport _ _ => true
  | _ => false

/-! The scheduler loop.  `main` registers a cron job (main.rs lines
143-161) whose async body iterates `GUILDS.lock().await.iter()` — so the
registry mutex guard lives for the whole `for` statement — and for each
guild calls `enable_security_actions`, logs, and sleeps two seconds.  We
give the body a small-step event trace. -/

/-- Events of one dispatch pass: registry-lock acquisition and release,
an outbound Action Client call, the three log lines of the loop body, a
sleep, and a registry append (from `guild_create`). -/
inductive Ev where
  | lockAcquire : Ev
  | lockRelease : Ev
  | call : Nat → Ev
  | logErrFailed : Nat → Ev
  | logErrCause : String → Ev
  | logInfo : Nat → Ev
  | slept : Nat → Ev
  | recordAppend : Nat → Ev

/-- The events of one iteration of the cron-job loop body (main.rs lines
147-156) given the call's result: the call itself; on failure the error
log line, plus the cause line when the result is an `Err` (that
`unwrap_err` is guarded by `if res.is_err()` at line 150); then the
unconditional info line and the two-second sleep. -/
def stepEvents (res : Except String Bool) (g : Nat) : List Ev :=
  Ev.call g ::
    (match res with
     | Except.error e => [Ev.logErrFailed g, Ev.logErrCause e]
     | Except.ok true => []
     | Except.ok false => [Ev.logErrFailed g]) ++
    [Ev.logInfo g, Ev.slept 2]

/-- The same loop-body iteration with panics modelled as `none`, built
from the actual guarded primitives: the failure test short-circuits, and
`unwrap_err` runs only under `if res.is_err()`. -/
def schedulerStepOpt (res : Except String Bool) (g : Nat) :
    Option (List Ev) := do
  let failed ← failCond res
  let errEvs ←
    if failed then do
      let causeEvs ←
        if res_is_err res then do
          let e ← resUnwrapErr res
          pure [Ev.logErrCause e]
        else pure ([] : List Ev)
      pure (Ev.logErrFailed g :: causeEvs)
    else pure ([] : List Ev)
  pure (Ev.call g :: errEvs ++ [Ev.logInfo g, Ev.slept 2])

/-- Sequential processing of the snapshot with panic propagation: a panic
in one iteration aborts the rest of the pass. -/
def stepsOpt (w : World) (st : SharedState) : List Nat → Option (List Ev)
  | [] => some []
  | g :: rest => do
    let evs ← schedulerStepOpt ((enable_security_actions w g st).1) g
    let restEvs ← stepsOpt w st rest
    pure (evs ++ restEvs)

/-- The full trace of one dispatch pass: the registry lock is taken for
the whole `for` statement (the guard of `GUILDS.lock().await` lives until
the loop ends), bracketing every call and sleep. -/
def schedulerPassTrace (w : World) (st : SharedState) : List Ev :=
  Ev.lockAcquire :: (st.guilds.flatMap
    (fun g => stepEvents ((enable_security_actions w g st).1) g) ++
    [Ev.lockRelease])

/-- The dispatch pass with panic propagation (`none` when some iteration
panicked and the scheduler task died). -/
def schedulerPassOpt (w : World) (st : SharedState) : Option (List Ev) :=
  match stepsOpt w st st.guilds with
  | none => none
  | some evs => some (Ev.lockAcquire :: (evs ++ [Ev.lockRelease]))

/-- The guild ids of the outbound calls in a trace, in order. -/
def callsOf : List Ev → List Nat
  | [] => []
  | Ev.call g :: rest => g :: callsOf rest
  | _ :: rest => callsOf rest

/-- Scan a trace tracking the registry-lock depth, recording whether any
outbound call happens while the lock is held. -/
def lockScan : List Ev → Nat → Bool → Bool
  | [], _, b => b
  | Ev.lockAcquire :: rest, n, b => lockScan rest (n + 1) b
  | Ev.lockRelease :: rest, n, b => lockScan rest (n - 1) b
  | Ev.call _ :: rest, n, b => lockScan rest n (b || decide (0 < n))
  | _ :: rest, n, b => lockScan rest n b

/-- Whether some outbound call in the trace happens with the registry
lock held. -/
def anyCallWhileLocked (evs : List Ev) : Bool :=
  lockScan evs 0 false

/-- Trace of `guild_create` (main.rs lines 78-81): the discovery append
takes the registry lock only around the in-memory push. -/
def guildCreateTrace (g : Nat) : List Ev :=
  [Ev.lockAcquire, Ev.recordAppend g, Ev.lockRelease]

/-! Startup.  `main` (main.rs lines 115-167) loads dotenv, initializes
logging, creates the job scheduler, then reads `DISCORD_TOKEN` from the
environment and panics if it is absent — before the cron job is added,
before the scheduler is started and before the gateway client (which
feeds the registry) is built or started. -/

/-- The observable state of a fully started process: the contents of the
`TOKEN` mutex after `push_str`, and which of the later startup effects
ran. -/
structure RunningSystem where
  tokenStore : String
  jobAdded : Bool
  schedulerStarted : Bool
  clientStarted : Bool

/-- Embedding of `main`'s startup path as a function of the
`DISCORD_TOKEN` environment variable.  When the variable is absent the
process panics (`Except.error`) and none of the later effects happen;
otherwise the token is pushed into the empty `TOKEN` store, the cron job
is added, the scheduler starts, and the gateway client starts. -/
def mainStartup (envToken : Option String) : Except String RunningSystem :=
  match envToken with
  | none => Except.error "panic: DISCORD_TOKEN was not found"
  | some token =>
    Except.ok
      { tokenStore := token
        jobAdded := true
        schedulerStarted := true
        clientStarted := true }

/-! Concrete worlds used by witnesses and counterexamples. -/

/-- A world whose remote confirms the restriction: the send succeeds and
the response parses with `dms_disabled_until` present. -/
def appliedWorld : World :=
  { now := 0
    send := fun _ => Except.ok "resp"
    parseIncidentAction := fun _ =>
      Except.ok
        { invites_disabled_until := none
          dms_disabled_until := some "2025-01-01T00:00:00+00:00" } }

/-- A world whose remote accepts the call but does not confirm: the send
succeeds and the response parses with `dms_disabled_until` null. -/
def rejectedWorld : World :=
  { now := 0
    send := fun _ => Except.ok "resp"
    parseIncidentAction := fun _ =>
      Except.ok
        { invites_disabled_until := none
          dms_disabled_until := none } }

/-- A shared state with credential `T1` and a one-guild registry. -/
def st1 : SharedState := { token := "T1", guilds := [42] }

/-! Helper lemmas shared by the claim theorems. -/

/-- The guarded loop-body iteration never panics: the `Option` model of
the cron-job body agrees with its plain event list for every call result. -/
theorem schedulerStepOpt_eq (res : Except String Bool) (g : Nat) :
    schedulerStepOpt res g = some (stepEvents res g) := by
  cases res with
  | error e => rfl
  | ok b => cases b <;> rfl

/-- Sequential processing never panics and yields the concatenation of
the per-guild event lists, in registry order. -/
theorem stepsOpt_eq (w : World) (st : SharedState) (gs : List Nat) :
    stepsOpt w st gs =
      some (gs.flatMap
        (fun g => stepEvents ((enable_security_actions w g st).1) g)) := by
  induction gs with
  | nil => rfl
  | cons g rest ih =>
    simp [stepsOpt, schedulerStepOpt_eq, ih, List.flatMap_cons]

/-- Calls recorded in a concatenation of traces. -/
theorem callsOf_append (a b : List Ev) :
    callsOf (a ++ b) = callsOf a ++ callsOf b := by
  induction a with
  | nil => rfl
  | cons e t ih => cases e <;> simp [callsOf, ih]

/-- One loop-body iteration performs exactly one call, to its guild. -/
theorem callsOf_stepEvents (res : Except String Bool) (g : Nat) :
    callsOf (stepEvents res g) = [g] := by
  cases res with
  | error e => rfl
  | ok b => cases b <;> rfl

/-- A pass over a snapshot calls exactly the snapshot's guilds, in order. -/
theorem callsOf_pass (w : World) (st : SharedState) :
    callsOf (schedulerPassTrace w st) = st.guilds := by
  have hflat : ∀ gs : List Nat,
      callsOf (gs.flatMap
        (fun g => stepEvents ((enable_security_actions w g st).1) g)) = gs := by
    intro gs
    induction gs with
    | nil => rfl
    | cons g rest ih =>
      simp [List.flatMap_cons, callsOf_append, callsOf_stepEvents, ih]
  calc callsOf (schedulerPassTrace w st)
      = callsOf (st.guilds.flatMap
          (fun g => stepEvents ((enable_security_actions w g st).1) g) ++
          [Ev.lockRelease]) := rfl
    _ = st.guilds := by simp [callsOf_append, hflat, callsOf]

/-- Once a call under the lock has been seen, the scan stays true. -/
theorem lockScan_true (l : List Ev) : ∀ n : Nat, lockScan l n true = true := by
  induction l with
  | nil => intro n; rfl
  | cons e rest ih => intro n; cases e <;> simp [lockScan, ih]

/-- A loop-body iteration entered with the lock held immediately performs
an outbound call under the lock. -/
theorem lockScan_step_head (res : Except String Bool) (g : Nat)
    (l : List Ev) : lockScan (stepEvents res g ++ l) 1 false = true := by
  cases res with
  | error e => simp [stepEvents, lockScan, lockScan_true]
  | ok b => cases b <;> simp [stepEvents, lockScan, lockScan_true]

/-! Claim theorems. -/

/-- C1 (code bug): when the remote call succeeds but the parsed response
has `dms_disabled_until` absent, `enable_security_actions` does return the
`Rejected` outcome (`Ok(false)`), but the on-demand handler then panics:
line 44 evaluates `res.unwrap_err()` on that `Ok` value with no `is_err`
guard, so the user-facing permissions-error report is never delivered.
The periodic loop guards the same call with `if res.is_err()` (line 150),
showing the unguarded handler call is a slip. -/
theorem C1_rejected_on_demand_panics :
    classify (enable_security_actions rejectedWorld 42 st1).1 =
      ProtectiveActionResult.Rejected ∧
    interaction_create rejectedWorld st1
      { isApplicationCommand := true, name := "instant", guildId := some 42 } =
      OnDemandOutcome.panickedReport 42 (Except.ok false) :=
  ⟨rfl, rfl⟩

/-- C2 (confirmed): one Action Client call classifies its outcome into
exactly the spec's three cases — transport or parse failure gives
`TransportFailure` with the cause, a parsed response with
`dms_disabled_until` present gives `Applied`, and otherwise `Rejected`. -/
theorem C2_three_way_classification (w : World) (gid : Nat)
    (st : SharedState) :
    classify (enable_security_actions w gid st).1 = apply_spec w gid st := by
  cases hs : w.send (buildRequest w.now st.token gid) with
  | error e => simp [classify, enable_security_actions, apply_spec, hs]
  | ok body =>
    cases hp : w.parseIncidentAction body with
    | error e => simp [classify, enable_security_actions, apply_spec, hs, hp]
    | ok j =>
      cases hj : j.dms_disabled_until.isSome <;>
        simp [classify, enable_security_actions, apply_spec, hs, hp, hj]

/-- C3 (confirmed): every request payload has `invites_disabled_until`
absent and `dms_disabled_until` set to the current time plus exactly
24 hours (86400 seconds), rendered as an RFC-3339 timestamp with the
explicit UTC offset `+00:00`. -/
theorem C3_payload_now_plus_24h (now : Nat) (token : String) (gid : Nat) :
    (buildRequest now token gid).body.invites_disabled_until = none ∧
    (buildRequest now token gid).body.dms_disabled_until =
      some (toRfc3339Utc (now + 24 * 60 * 60)) ∧
    ∃ p, toRfc3339Utc (now + 24 * 60 * 60) = p ++ "+00:00" :=
  ⟨rfl, rfl, ⟨_, rfl⟩⟩

/-- C4 (confirmed): a dispatch pass never panics — the `Option` model of
the cron-job body (whose `unwrap` and `unwrap_err` are guarded) equals the
plain trace for every world and registry — and the pass calls every
tenant of the snapshot, so no failure for one tenant aborts the rest or
kills the scheduler task. -/
theorem C4_failures_handled (w : World) (st : SharedState) :
    schedulerPassOpt w st = some (schedulerPassTrace w st) ∧
    callsOf (schedulerPassTrace w st) = st.guilds := by
  constructor
  · simp [schedulerPassOpt, stepsOpt_eq, schedulerPassTrace]
  · exact callsOf_pass w st

/-- C5 (confirmed): a pass over a snapshot of N tenants performs exactly
N calls, one per tenant in snapshot order; the pass is the sequential
concatenation of per-tenant segments, and every segment starts with its
call and ends with the fixed two-second sleep — including the last. -/
theorem C5_sequential_paced_pass (w : World) (st : SharedState) :
    callsOf (schedulerPassTrace w st) = st.guilds ∧
    schedulerPassTrace w st =
      Ev.lockAcquire :: (st.guilds.flatMap
        (fun g => stepEvents ((enable_security_actions w g st).1) g) ++
        [Ev.lockRelease]) ∧
    ∀ (res : Except String Bool) (g : Nat),
      (stepEvents res g).head? = some (Ev.call g) ∧
      (stepEvents res g).getLast? = some (Ev.slept 2) ∧
      callsOf (stepEvents res g) = [g] := by
  refine ⟨callsOf_pass w st, rfl, ?_⟩
  intro res g
  cases res with
  | error e => exact ⟨rfl, rfl, rfl⟩
  | ok b => cases b <;> exact ⟨rfl, rfl, rfl⟩

/-- C6 (counterexample): the claim that the registry lock is never held
across an outbound call is false — in the pass over the one-guild
registry the call to guild 42 happens with the lock held. -/
theorem C6_counterexample :
    anyCallWhileLocked (schedulerPassTrace appliedWorld st1) = true := rfl

/-- C6 (amended): the cron-job body iterates `GUILDS.lock().await.iter()`
directly, so the registry lock is held for the entire pass, across every
outbound call — every nonempty pass performs a call with the lock held,
and discovery appends are blocked for the duration of the pass.  Only the
discovery append itself (`guild_create`) holds the lock briefly for the
in-memory push. -/
theorem C6_lock_held_across_calls (w : World) (st : SharedState) (g : Nat)
    (h : st.guilds ≠ []) :
    anyCallWhileLocked (schedulerPassTrace w st) = true ∧
    anyCallWhileLocked (guildCreateTrace g) = false := by
  constructor
  · obtain ⟨g0, rest, hgs⟩ : ∃ g0 rest, st.guilds = g0 :: rest := by
      cases hgs : st.guilds with
      | nil => exact absurd hgs h
      | cons a l => exact ⟨a, l, rfl⟩
    simp only [anyCallWhileLocked, schedulerPassTrace, hgs,
      List.flatMap_cons, List.append_assoc, lockScan, Nat.zero_add]
    exact lockScan_step_head _ _ _
  · rfl

/-- C6 witness for the amended theorem, at the concrete one-guild
registry. -/
theorem C6_witness :
    st1.guilds ≠ [] ∧
    (anyCallWhileLocked (schedulerPassTrace appliedWorld st1) = true ∧
     anyCallWhileLocked (guildCreateTrace 7) = false) :=
  ⟨by decide, C6_lock_held_across_calls appliedWorld st1 7 (by decide)⟩

/-- C7 (counterexample): the Authorization header value is not formed as
a Bearer credential — for the stored token `T1` it differs from
`Bearer T1`. -/
theorem C7_counterexample :
    ¬ (buildRequest 0 "T1" 42).authorization = "Bearer " ++ "T1" := by
  decide

/-- C7 (amended): every outbound request carries the stored token in the
Authorization header, but under the `Bot` scheme — the header value is
`Bot ` followed by the token. -/
theorem C7_bot_scheme (now : Nat) (token : String) (gid : Nat) :
    (buildRequest now token gid).authorization = "Bot " ++ token := rfl

/-- C8 (counterexample): the claim that an invocation with no guild
context is rejected or ignored without crashing is false — the handler
crashes on it. -/
theorem C8_counterexample :
    crashed (interaction_create appliedWorld st1
      { isApplicationCommand := true, name := "instant", guildId := none }) =
      true := rfl

/-- C8 (amended): an "instant" invocation that carries no guild context
performs no Action Client call, but the handler panics at
`interaction.guild_id.unwrap()` (line 40) rather than rejecting or
ignoring the invocation; prevention of such invocations is delegated to
command registration via `dm_permission(false)`. -/
theorem C8_no_guild_panics (w : World) (st : SharedState) :
    interaction_create w st
      { isApplicationCommand := true, name := "instant", guildId := none } =
      OnDemandOutcome.panickedNoGuild ∧
    callsMade (interaction_create w st
      { isApplicationCommand := true, name := "instant", guildId := none }) =
      [] :=
  ⟨rfl, rfl⟩

/-- C9 (confirmed): with `DISCORD_TOKEN` absent the startup panics with a
configuration error before the cron job, the scheduler or the gateway
client exist; and any run that does reach the running system obtained its
(then nonempty-by-construction) credential from the environment. -/
theorem C9_missing_token_fails_fast :
    mainStartup none = Except.error "panic: DISCORD_TOKEN was not found" ∧
    ∀ (env : Option String) (sys : RunningSystem),
      mainStartup env = Except.ok sys →
      ∃ t, env = some t ∧ sys.tokenStore = t := by
  constructor
  · rfl
  · intro env sys hok
    cases env with
    | none => exact absurd hok (by simp [mainStartup])
    | some t =>
      cases hok
      exact ⟨t, rfl, rfl⟩

/-- C9 witness: a run with the token present reaches the running system
holding exactly that token. -/
theorem C9_witness :
    ∃ t, (some "T1" : Option String) = some t ∧
      (RunningSystem.mk "T1" true true true).tokenStore = t :=
  C9_missing_token_fails_fast.2 (some "T1")
    (RunningSystem.mk "T1" true true true) rfl

/-- C10 (confirmed): an Action Client call has no frame effect on the
shared state — `enable_security_actions` returns the `TOKEN` and `GUILDS`
state exactly as it received it, for every world, guild and state, so
neither the periodic nor the on-demand path mutates the credential or the
registry through it. -/
theorem C10_no_frame_effect (w : World) (gid : Nat) (st : SharedState) :
    (enable_security_actions w gid st).2 = st := by
  cases hs : w.send (buildRequest w.now st.token gid) with
  | error e => simp [enable_security_actions, hs]
  | ok body =>
    cases hp : w.parseIncidentAction body with
    | error e => simp [enable_security_actions, hs, hp]
    | ok j =>
      cases hj : j.dms_disabled_until.isSome <;>
        simp [enable_security_actions, hs, hp, hj]

end NoMoreDM
